import Mathlib

/-!
Shallow embedding of the CyberArk CCP client core
(`cyberark_ccp/client.py`): request building and validation
(`_build_params`, `_validate_url_value`, the precondition check in
`get_account`) and response classification (`_handle_http_error`,
the success-path JSON decoding).  Python `Optional[...]` arguments
become `Option`, raised exceptions become `Except` errors / an error
inductive mirroring the exception classes, and the parameter dict
(insertion-ordered in Python) becomes an ordered association list.
-/

/-- The exception taxonomy of `cyberark_ccp/exceptions.py`.  `generic`
is the base class `CyberarkCCPError` itself. -/
inductive CCPError where
  | validation (msg : String)
  | authentication (msg : String)
  | authorization (msg : String)
  | accountNotFound (msg : String)
  | connection (msg : String)
  | timeout (msg : String)
  | generic (msg : String)
deriving DecidableEq, Repr

/-- `QueryFormat` enum of `client.py`. -/
inductive QueryFormat where
  | exact
  | regexp
deriving DecidableEq, Repr

/-- The `.value` of each enum member. -/
def QueryFormat.value : QueryFormat → String
  | .exact => "Exact"
  | .regexp => "Regexp"

/-- The keyword arguments of `get_account` / `get_password` /
`_build_params`; every one defaults to `None` in the source. -/
structure Args where
  account : Option String := none
  safe : Option String := none
  folder : Option String := none
  password_object : Option String := none
  username : Option String := none
  address : Option String := none
  database : Option String := none
  policy_id : Option String := none
  reason : Option String := none
  query : Option String := none
  query_format : Option QueryFormat := none
  connection_timeout : Option Int := none
  fail_request_on_password_change : Option Bool := none
deriving Repr

/-- Python truthiness of an `Optional[str]`: `None` and `""` are falsy. -/
def truthy : Option String → Bool
  | none => false
  | some s => !s.isEmpty

/-- `invalid_chars = ["+", "&", "%", ";"]` in `_validate_url_value`. -/
def invalid_chars : List Char := ['+', '&', '%', ';']

/-- The f-string raised for an invalid character (Python renders
`{invalid_chars}` as `['+', '&', '%', ';']`). -/
def invalidCharMessage (param_name : String) (c : Char) : String :=
  "Parameter '" ++ param_name ++ "' contains invalid character '" ++ c.toString ++
    "'. Characters ['+', '&', '%', ';'] are not supported."

/-- The f-string raised for an embedded space. -/
def spacesMessage (param_name : String) : String :=
  "Parameter '" ++ param_name ++ "' contains spaces which are not allowed in URLs"

/-- Python's `char in value` for a single character: membership in the
string's character list. -/
def hasChar (s : String) (c : Char) : Bool := s.data.contains c

/-- `CyberarkCCPClient._validate_url_value`: scan `invalid_chars` in
order and raise on the first one contained in `value`; then reject a
space. -/
def validate_url_value (value : String) (param_name : String) : Except CCPError Unit :=
  match invalid_chars.find? (fun c => hasChar value c) with
  | some c => .error (.validation (invalidCharMessage param_name c))
  | none =>
    if hasChar value ' ' then .error (.validation (spacesMessage param_name))
    else .ok ()

/-- The `optional_params` dict of `_build_params`, in its insertion
order. -/
def optionalParams (a : Args) : List (String × Option String) :=
  [("Safe", a.safe), ("Folder", a.folder), ("Object", a.password_object),
   ("UserName", a.username), ("Address", a.address), ("Database", a.database),
   ("PolicyID", a.policy_id)]

/-- The `for key, value in optional_params.items()` loop: skip `None`
values, validate then emit the rest, propagating the first validation
error. -/
def addOptionalParams : List (String × Option String) → Except CCPError (List (String × String))
  | [] => .ok []
  | (_, none) :: rest => addOptionalParams rest
  | (key, some v) :: rest =>
    match validate_url_value v key with
    | .error e => .error e
    | .ok _ =>
      match addOptionalParams rest with
      | .error e => .error e
      | .ok tail => .ok ((key, v) :: tail)

/-- The `if query:` branch of `_build_params`: validate the query, emit
`Query` and, when a format was supplied (enum members are truthy),
`Query Format`. -/
def queryPart (q : String) (qf : Option QueryFormat) : Except CCPError (List (String × String)) :=
  match validate_url_value q "Query" with
  | .error e => .error e
  | .ok _ =>
    .ok (("Query", q) ::
      (match qf with
       | some f => [("Query Format", f.value)]
       | none => []))

/-- The search-criteria portion of `_build_params`: the `Query` branch
when `query` is truthy (present and non-empty), the discrete-field loop
otherwise. -/
def searchPart (a : Args) : Except CCPError (List (String × String)) :=
  match a.query with
  | some q => if q.isEmpty then addOptionalParams (optionalParams a) else queryPart q a.query_format
  | none => addOptionalParams (optionalParams a)

/-- The `if reason is not None:` block. -/
def reasonPart (r? : Option String) : Except CCPError (List (String × String)) :=
  match r? with
  | some r =>
    match validate_url_value r "Reason" with
    | .error e => .error e
    | .ok _ => .ok [("Reason", r)]
  | none => .ok []

/-- The `if connection_timeout is not None:` block. -/
def timeoutPart (t? : Option Int) : Except CCPError (List (String × String)) :=
  match t? with
  | some t =>
    if t ≤ 0 then .error (.validation "Connection timeout must be positive")
    else .ok [("Connection Timeout", toString t)]
  | none => .ok []

/-- The `if fail_request_on_password_change is not None:` block;
`str(b).lower()` is `"true"` / `"false"`. -/
def flagPart (b? : Option Bool) : List (String × String) :=
  match b? with
  | some b => [("FailRequestOnPasswordChange", if b then "true" else "false")]
  | none => []

/-- `CyberarkCCPClient._build_params`: `AppID` first, then the search
criteria, then `Reason`, `Connection Timeout` and
`FailRequestOnPasswordChange`, raising at the first invalid value. -/
def build_params (app_id : String) (a : Args) : Except CCPError (List (String × String)) :=
  match searchPart a with
  | .error e => .error e
  | .ok sp =>
    match reasonPart a.reason with
    | .error e => .error e
    | .ok rp =>
      match timeoutPart a.connection_timeout with
      | .error e => .error e
      | .ok tp =>
        .ok ((("AppID", app_id) :: sp) ++ rp ++ tp ++ flagPart a.fail_request_on_password_change)

/-- The precondition of `get_account`: `not query and not account and
... and not policy_id` (Python truthiness, so empty strings count as
missing; `folder` is not part of the check). -/
def noSearchParamProvided (a : Args) : Bool :=
  !truthy a.query && !truthy a.account && !truthy a.safe && !truthy a.password_object &&
    !truthy a.username && !truthy a.address && !truthy a.database && !truthy a.policy_id

/-- The message of the missing-parameter `CyberarkCCPValidationError`. -/
def missingParamMsg : String :=
  "The query must contain the AppID and at least one other parameter"

/-- The validation phase of `get_account`: the precondition check
followed by `_build_params`. -/
def get_account_params (app_id : String) (a : Args) : Except CCPError (List (String × String)) :=
  if noSearchParamProvided a then .error (.validation missingParamMsg)
  else build_params app_id a

/-- Client construction state (`__init__` fields; `_session` is the
external HTTP transport and carries no data of its own). -/
structure Client where
  base_url : String
  app_id : String
  cert_path : Option String := none
  verify : Bool := true
  timeout : Int := 30
deriving DecidableEq, Repr

/-- The single GET request `get_account` would issue:
`self._session.get(url, params=..., verify=..., cert=..., timeout=...)`. -/
structure Request where
  url : String
  params : List (String × String)
  verify : Bool
  cert : Option String
  timeout : Int
deriving DecidableEq, Repr

/-- `cert=self.cert_path if self.cert_path else None` (Python
truthiness: `""` also becomes `None`). -/
def certArg : Option String → Option String
  | none => none
  | some p => if p.isEmpty then none else some p

/-- The pre-request phase of `get_account`, as explicit state passing:
the client record (never assigned to in the source) together with
either the validation error raised before any I/O, or the request that
would be issued. -/
def get_account_step (c : Client) (a : Args) : Client × Except CCPError Request :=
  (c,
   match get_account_params c.app_id a with
   | .error e => .error e
   | .ok ps =>
     .ok { url := c.base_url ++ "/AIMWebService/api/Accounts",
           params := ps, verify := c.verify, cert := certArg c.cert_path,
           timeout := c.timeout })

/-- Decoded JSON values, the result of `response.json()`. -/
inductive Json where
  | null
  | bool (b : Bool)
  | num (n : Int)
  | str (s : String)
  | arr (elems : List Json)
  | obj (fields : List (String × Json))

/-- The error body `_handle_http_error` reads with
`error_json.get("ErrorCode", "Unknown")` /
`error_json.get("ErrorMessage", "No message provided")`. -/
structure ErrorBody where
  errorCode : Option String := none
  errorMessage : Option String := none
deriving DecidableEq, Repr

/-- `error_json.get("ErrorCode", "Unknown")`. -/
def ErrorBody.code (b : ErrorBody) : String := b.errorCode.getD "Unknown"

/-- `error_json.get("ErrorMessage", "No message provided")`. -/
def ErrorBody.message (b : ErrorBody) : String := b.errorMessage.getD "No message provided"

/-- `error_text = response.text or str(http_err)` in the `except
ValueError` fallback: Python string truthiness picks `str(http_err)`
when the response text is empty. -/
def fallbackText (text httpErrStr : String) : String :=
  if text.isEmpty then httpErrStr else text

/-- `CyberarkCCPClient._handle_http_error`.  `body = some b` models a
response whose body decoded as JSON; `body = none` the `except
ValueError` fallback, where `error_text = response.text or
str(http_err)`. -/
def handle_http_error (status : Nat) (body : Option ErrorBody)
    (text : String) (httpErrStr : String) : CCPError :=
  match body with
  | some b =>
    let ec := b.code
    let em := b.message
    if status = 400 then
      if ec = "AIMWS030E" then
        .validation ("Invalid query format (" ++ ec ++ "): " ++ em)
      else if ec = "APPAP227E" ∨ ec = "APPAP228E" ∨ ec = "APPAP229E" then
        .accountNotFound ("Too many objects (" ++ ec ++ "): " ++ em)
      else if ec = "APPAP007E" then
        .connection ("Connection to Vault failed (" ++ ec ++ "): " ++ em)
      else if ec = "APPAP081E" ∨ ec = "CASVL010E" ∨ ec = "AIMWS031E" then
        .validation ("Request validation error (" ++ ec ++ "): " ++ em)
      else
        .generic ("Bad Request (" ++ ec ++ "): " ++ em)
    else if status = 403 then
      if ec = "APPAP306E" then
        .authentication ("Authentication failed (" ++ ec ++ "): " ++ em)
      else if ec = "APPAP008E" then
        .authorization ("User not defined (" ++ ec ++ "): " ++ em)
      else
        .authorization ("Authorization failed (" ++ ec ++ "): " ++ em)
    else if status = 404 then
      if ec = "APPAP004E" then
        .accountNotFound ("Safe not found (" ++ ec ++ "): " ++ em)
      else
        .accountNotFound ("Resource not found (" ++ ec ++ "): " ++ em)
    else if status = 500 then
      if ec = "APPAP282E" then
        .generic ("Password change in progress (" ++ ec ++ "): " ++ em)
      else
        .generic ("Internal server error (" ++ ec ++ "): " ++ em)
    else
      .generic ("CCP API error " ++ toString status ++ " (" ++ ec ++ "): " ++ em)
  | none =>
    let error_text := fallbackText text httpErrStr
    if status = 400 then
      .validation ("Bad Request (HTTP " ++ toString status ++ "): " ++ error_text)
    else if status = 403 then
      .authentication ("Forbidden (HTTP " ++ toString status ++ "): " ++ error_text)
    else if status = 404 then
      .accountNotFound ("Not Found (HTTP " ++ toString status ++ "): " ++ error_text)
    else if status = 500 then
      .generic ("Internal Server Error (HTTP " ++ toString status ++ "): " ++ error_text)
    else
      .generic ("HTTP error " ++ toString status ++ ": " ++ error_text)

/-- `response.raise_for_status()` raises exactly for 4xx/5xx statuses. -/
def raiseForStatusFails (status : Nat) : Bool := 400 ≤ status && status < 600

/-- The response-handling phase of `get_account`: on a 4xx/5xx status
the `HTTPError` is classified by `_handle_http_error`; otherwise
`response.json()` is returned, a decode failure (`decoded = none`)
being caught by the `except ValueError` arm. -/
def get_account_response (status : Nat) (decoded : Option Json) (body : Option ErrorBody)
    (text : String) (httpErrStr : String) : Except CCPError Json :=
  if raiseForStatusFails status then
    .error (handle_http_error status body text httpErrStr)
  else
    match decoded with
    | some j => .ok j
    | none => .error (.generic "Invalid JSON response from server")

/-- Substring containment, used to state that an error message
references a given text. -/
def strContains (s pat : String) : Prop := ∃ l r, s = l ++ pat ++ r

theorem invalidCharMessage_ne_missing (name : String) (c : Char) :
    invalidCharMessage name c ≠ missingParamMsg := by
  intro h
  have h2 := congrArg String.data h
  simp only [invalidCharMessage, missingParamMsg, String.data_append] at h2
  simp at h2

theorem spacesMessage_ne_missing (name : String) :
    spacesMessage name ≠ missingParamMsg := by
  intro h
  have h2 := congrArg String.data h
  simp only [spacesMessage, missingParamMsg, String.data_append] at h2
  simp at h2

theorem timeoutMessage_ne_missing :
    "Connection timeout must be positive" ≠ missingParamMsg := by decide

theorem validate_url_value_error_validation (v name : String) (e : CCPError)
    (h : validate_url_value v name = .error e) :
    ∃ m, e = .validation m ∧ m ≠ missingParamMsg := by
  unfold validate_url_value at h
  cases hf : invalid_chars.find? (fun c => hasChar v c) with
  | some c =>
    rw [hf] at h
    have h' : CCPError.validation (invalidCharMessage name c) = e := Except.error.inj h
    exact ⟨invalidCharMessage name c, h'.symm, invalidCharMessage_ne_missing name c⟩
  | none =>
    rw [hf] at h
    have h' : (if hasChar v ' ' then
          (Except.error (CCPError.validation (spacesMessage name)) : Except CCPError Unit)
        else .ok ()) = .error e := h
    split at h'
    · exact ⟨spacesMessage name, (Except.error.inj h').symm, spacesMessage_ne_missing name⟩
    · simp at h'

theorem addOptionalParams_error_validation (l : List (String × Option String)) (e : CCPError)
    (h : addOptionalParams l = .error e) :
    ∃ m, e = .validation m ∧ m ≠ missingParamMsg := by
  induction l with
  | nil => simp [addOptionalParams] at h
  | cons kv rest ih =>
    obtain ⟨k, v?⟩ := kv
    cases v? with
    | none => exact ih h
    | some v =>
      simp only [addOptionalParams] at h
      cases hv : validate_url_value v k <;> rw [hv] at h
      · simp only [Except.error.injEq] at h
        subst h
        exact validate_url_value_error_validation v k _ hv
      · cases hr : addOptionalParams rest <;> rw [hr] at h
        · simp only [Except.error.injEq] at h
          subst h
          exact ih hr
        · simp at h

theorem addOptionalParams_ok_mem (l : List (String × Option String)) (res : List (String × String))
    (h : addOptionalParams l = .ok res) (k v : String) :
    (k, v) ∈ res ↔ (k, some v) ∈ l := by
  induction l generalizing res with
  | nil =>
    simp only [addOptionalParams, Except.ok.injEq] at h
    subst h
    simp
  | cons kv rest ih =>
    obtain ⟨k', v?⟩ := kv
    cases v? with
    | none =>
      have h' : addOptionalParams rest = .ok res := h
      rw [ih res h']
      simp
    | some w =>
      simp only [addOptionalParams] at h
      cases hv : validate_url_value w k' <;> rw [hv] at h
      · simp at h
      · cases hr : addOptionalParams rest <;> rw [hr] at h
        · simp at h
        · simp only [Except.ok.injEq] at h
          subst h
          rw [List.mem_cons, List.mem_cons, ih _ hr]
          simp [Prod.ext_iff]

theorem queryPart_ok (q : String) (qf : Option QueryFormat) (sp : List (String × String))
    (h : queryPart q qf = .ok sp) :
    validate_url_value q "Query" = .ok ()
    ∧ ((qf = none ∧ sp = [("Query", q)])
        ∨ ∃ f, qf = some f ∧ sp = [("Query", q), ("Query Format", f.value)]) := by
  unfold queryPart at h
  cases hv : validate_url_value q "Query" with
  | error e' => rw [hv] at h; simp at h
  | ok u =>
    cases u
    rw [hv] at h
    refine ⟨rfl, ?_⟩
    cases qf with
    | none =>
      simp only [Except.ok.injEq] at h
      exact .inl ⟨rfl, h.symm⟩
    | some f =>
      simp only [Except.ok.injEq] at h
      exact .inr ⟨f, rfl, h.symm⟩

theorem queryPart_error_validation (q : String) (qf : Option QueryFormat) (e : CCPError)
    (h : queryPart q qf = .error e) :
    ∃ m, e = .validation m ∧ m ≠ missingParamMsg := by
  unfold queryPart at h
  cases hv : validate_url_value q "Query" with
  | error e' =>
    rw [hv] at h
    have h' : e' = e := Except.error.inj h
    exact h' ▸ validate_url_value_error_validation q "Query" e' hv
  | ok u => rw [hv] at h; simp at h

theorem searchPart_query (a : Args) (q : String) (hq : a.query = some q)
    (hne : q.isEmpty = false) :
    searchPart a = queryPart q a.query_format := by
  unfold searchPart
  rw [hq]
  simp [hne]

theorem searchPart_noquery (a : Args) (hq : truthy a.query = false) :
    searchPart a = addOptionalParams (optionalParams a) := by
  unfold searchPart
  cases hv : a.query with
  | none => rfl
  | some q =>
    rw [hv] at hq
    simp only [truthy, Bool.not_eq_false'] at hq
    simp [hq]

theorem searchPart_error_validation (a : Args) (e : CCPError)
    (h : searchPart a = .error e) :
    ∃ m, e = .validation m ∧ m ≠ missingParamMsg := by
  unfold searchPart at h
  cases hv : a.query with
  | none =>
    rw [hv] at h
    exact addOptionalParams_error_validation _ e h
  | some q =>
    rw [hv] at h
    have h' : (if q.isEmpty then addOptionalParams (optionalParams a)
        else queryPart q a.query_format) = .error e := h
    by_cases hne : q.isEmpty
    · rw [if_pos hne] at h'
      exact addOptionalParams_error_validation _ e h'
    · rw [if_neg hne] at h'
      exact queryPart_error_validation q a.query_format e h'

theorem reasonPart_ok (r? : Option String) (rp : List (String × String))
    (h : reasonPart r? = .ok rp) :
    (r? = none ∧ rp = [])
    ∨ ∃ r, r? = some r ∧ validate_url_value r "Reason" = .ok () ∧ rp = [("Reason", r)] := by
  cases r? with
  | none =>
    simp only [reasonPart, Except.ok.injEq] at h
    exact .inl ⟨rfl, h.symm⟩
  | some r =>
    simp only [reasonPart] at h
    cases hv : validate_url_value r "Reason" with
    | error e' => rw [hv] at h; simp at h
    | ok u =>
      cases u
      rw [hv] at h
      simp only [Except.ok.injEq] at h
      exact .inr ⟨r, rfl, hv, h.symm⟩

theorem reasonPart_error_validation (r? : Option String) (e : CCPError)
    (h : reasonPart r? = .error e) :
    ∃ m, e = .validation m ∧ m ≠ missingParamMsg := by
  cases r? with
  | none => simp [reasonPart] at h
  | some r =>
    simp only [reasonPart] at h
    cases hv : validate_url_value r "Reason" with
    | error e' =>
      rw [hv] at h
      have h' : e' = e := Except.error.inj h
      exact h' ▸ validate_url_value_error_validation r "Reason" e' hv
    | ok u => rw [hv] at h; simp at h

theorem timeoutPart_ok (t? : Option Int) (tp : List (String × String))
    (h : timeoutPart t? = .ok tp) :
    (t? = none ∧ tp = [])
    ∨ ∃ t, t? = some t ∧ 0 < t ∧ tp = [("Connection Timeout", toString t)] := by
  cases t? with
  | none =>
    simp only [timeoutPart, Except.ok.injEq] at h
    exact .inl ⟨rfl, h.symm⟩
  | some t =>
    simp only [timeoutPart] at h
    split at h
    · simp at h
    · next hle =>
      simp only [Except.ok.injEq] at h
      exact .inr ⟨t, rfl, by omega, h.symm⟩

theorem timeoutPart_error (t? : Option Int) (e : CCPError)
    (h : timeoutPart t? = .error e) :
    e = .validation "Connection timeout must be positive" ∧ ∃ t, t? = some t ∧ t ≤ 0 := by
  cases t? with
  | none => simp [timeoutPart] at h
  | some t =>
    simp only [timeoutPart] at h
    split at h
    · next hle => exact ⟨(Except.error.inj h).symm, t, rfl, hle⟩
    · simp at h

theorem timeoutPart_some_nonpos (t : Int) (hle : t ≤ 0) :
    timeoutPart (some t) = .error (.validation "Connection timeout must be positive") := by
  simp [timeoutPart, hle]

theorem flagPart_mem (b? : Option Bool) (k v : String) :
    (k, v) ∈ flagPart b?
      ↔ k = "FailRequestOnPasswordChange"
        ∧ ∃ b, b? = some b ∧ v = (if b then "true" else "false") := by
  cases b? with
  | none => simp [flagPart]
  | some b => simp [flagPart, Prod.ext_iff, and_assoc]

theorem build_params_ok (app_id : String) (a : Args) (p : List (String × String))
    (h : build_params app_id a = .ok p) :
    ∃ sp rp tp, searchPart a = .ok sp ∧ reasonPart a.reason = .ok rp
      ∧ timeoutPart a.connection_timeout = .ok tp
      ∧ p = (("AppID", app_id) :: sp) ++ rp ++ tp
            ++ flagPart a.fail_request_on_password_change := by
  unfold build_params at h
  cases hsp : searchPart a with
  | error e => rw [hsp] at h; simp at h
  | ok sp =>
    rw [hsp] at h
    cases hrp : reasonPart a.reason with
    | error e => rw [hrp] at h; simp at h
    | ok rp =>
      rw [hrp] at h
      cases htp : timeoutPart a.connection_timeout with
      | error e => rw [htp] at h; simp at h
      | ok tp =>
        rw [htp] at h
        simp only [Except.ok.injEq] at h
        exact ⟨sp, rp, tp, rfl, rfl, rfl, h.symm⟩

theorem build_params_error_validation (app_id : String) (a : Args) (e : CCPError)
    (h : build_params app_id a = .error e) :
    ∃ m, e = .validation m ∧ m ≠ missingParamMsg := by
  unfold build_params at h
  cases hsp : searchPart a with
  | error e' =>
    rw [hsp] at h
    exact (Except.error.inj h) ▸ searchPart_error_validation a e' hsp
  | ok sp =>
    rw [hsp] at h
    cases hrp : reasonPart a.reason with
    | error e' =>
      rw [hrp] at h
      exact (Except.error.inj h) ▸ reasonPart_error_validation a.reason e' hrp
    | ok rp =>
      rw [hrp] at h
      cases htp : timeoutPart a.connection_timeout with
      | error e' =>
        rw [htp] at h
        obtain ⟨hm, -⟩ := timeoutPart_error a.connection_timeout e' htp
        exact (Except.error.inj h) ▸ ⟨_, hm, timeoutMessage_ne_missing⟩
      | ok tp => rw [htp] at h; simp at h

theorem get_account_params_error_validation (app_id : String) (a : Args) (e : CCPError)
    (h : get_account_params app_id a = .error e) :
    ∃ m, e = .validation m := by
  unfold get_account_params at h
  split at h
  · exact ⟨missingParamMsg, (Except.error.inj h).symm⟩
  · obtain ⟨m, hm, -⟩ := build_params_error_validation app_id a e h
    exact ⟨m, hm⟩

theorem addOptionalParams_ok_valid (l : List (String × Option String)) (res : List (String × String))
    (h : addOptionalParams l = .ok res) :
    ∀ k v, (k, some v) ∈ l → validate_url_value v k = .ok () := by
  induction l generalizing res with
  | nil => simp
  | cons kv rest ih =>
    obtain ⟨k', v?⟩ := kv
    cases v? with
    | none =>
      intro k v hm
      have h' : addOptionalParams rest = .ok res := h
      rcases List.mem_cons.mp hm with he | hm'
      · simp at he
      · exact ih res h' k v hm'
    | some w =>
      simp only [addOptionalParams] at h
      cases hv : validate_url_value w k' with
      | error e' => rw [hv] at h; simp at h
      | ok u =>
        cases u
        rw [hv] at h
        cases hr : addOptionalParams rest <;> rw [hr] at h
        · simp at h
        · intro k v hm
          rcases List.mem_cons.mp hm with he | hm'
          · injection he with hk hw
            subst hk
            injection hw with hw
            subst hw
            exact hv
          · exact ih _ hr k v hm'

theorem strContains_fallback (pre text httpErrStr : String) :
    strContains (pre ++ fallbackText text httpErrStr) text := by
  by_cases he : text.isEmpty
  · obtain rfl := (String.isEmpty_iff text).mp he
    refine ⟨pre ++ fallbackText "" httpErrStr, "", ?_⟩
    apply String.ext
    simp [String.data_append]
  · refine ⟨pre, "", ?_⟩
    unfold fallbackText
    rw [if_neg he]
    apply String.ext
    simp [String.data_append]

/-- C1: when none of query, account, safe, password object, username, address,
database or policy id is present and non-empty, the `get_account` validation
phase fails with the missing-parameter `CyberarkCCPValidationError`, whose
message references the AppID and at least one other parameter; when at least
one of those fields is present and non-empty, that error is never raised. -/
theorem c1_requires_appid_and_one_parameter (app_id : String) (a : Args) :
    (noSearchParamProvided a = true →
      get_account_params app_id a = .error (.validation missingParamMsg)
      ∧ strContains missingParamMsg "AppID and at least one other parameter")
    ∧ (noSearchParamProvided a = false →
      get_account_params app_id a ≠ .error (.validation missingParamMsg)) := by
  constructor
  · intro hno
    refine ⟨?_, "The query must contain the ", "", by decide⟩
    unfold get_account_params
    rw [hno]
    simp
  · intro hyes h
    unfold get_account_params at h
    rw [hyes] at h
    have h' : build_params app_id a = .error (.validation missingParamMsg) := h
    obtain ⟨m, hm, hnem⟩ := build_params_error_validation app_id a _ h'
    exact hnem (CCPError.validation.inj hm).symm

/-- Witness for C1: the all-absent criteria set fails with the
missing-parameter error. -/
theorem c1_requires_appid_and_one_parameter_witness :
    get_account_params "testappid" {} = .error (.validation missingParamMsg)
    ∧ strContains missingParamMsg "AppID and at least one other parameter" :=
  (c1_requires_appid_and_one_parameter "testappid" {}).1 rfl

/-- C10: whenever the pre-request phase of `get_account` fails, the failure is
a `CyberarkCCPValidationError` raised strictly before the GET, no HTTP request
is produced, and the client record is unchanged. -/
theorem c10_validation_before_request (c : Client) (a : Args) (e : CCPError)
    (h : (get_account_step c a).2 = .error e) :
    (get_account_step c a).1 = c
    ∧ (∀ r : Request, (get_account_step c a).2 ≠ .ok r)
    ∧ ∃ m, e = .validation m := by
  refine ⟨rfl, ?_, ?_⟩
  · intro r hr
    have hx := h.symm.trans hr
    simp at hx
  · have h2 : (get_account_step c a).2 = .error e := h
    unfold get_account_step at h2
    cases hga : get_account_params c.app_id a with
    | error eX =>
      rw [hga] at h2
      simp only [Except.error.injEq] at h2
      subst h2
      exact get_account_params_error_validation c.app_id a _ hga
    | ok ps =>
      rw [hga] at h2
      simp at h2

/-- Witness for C10: a failing call leaves the client record unchanged. -/
theorem c10_validation_before_request_witness :
    (get_account_step { base_url := "https://ccp.example.com", app_id := "app" } {}).1
      = { base_url := "https://ccp.example.com", app_id := "app" } :=
  (c10_validation_before_request
    { base_url := "https://ccp.example.com", app_id := "app" } {}
    (.validation missingParamMsg) rfl).1

/-- C4: HTTP 403 with a JSON body classifies as Authentication (message
carrying the code and message text) for APPAP306E, Authorization
"User not defined" for APPAP008E, and Authorization "Authorization failed"
for any other or absent error code. -/
theorem c4_forbidden_classification (b : ErrorBody) (text httpErrStr : String) :
    (b.code = "APPAP306E" →
      handle_http_error 403 (some b) text httpErrStr
        = .authentication ("Authentication failed (" ++ b.code ++ "): " ++ b.message)
      ∧ strContains ("Authentication failed (" ++ b.code ++ "): " ++ b.message) "APPAP306E"
      ∧ strContains ("Authentication failed (" ++ b.code ++ "): " ++ b.message) b.message)
    ∧ (b.code = "APPAP008E" →
      handle_http_error 403 (some b) text httpErrStr
        = .authorization ("User not defined (" ++ b.code ++ "): " ++ b.message)
      ∧ strContains ("User not defined (" ++ b.code ++ "): " ++ b.message) "User not defined")
    ∧ (b.code ≠ "APPAP306E" → b.code ≠ "APPAP008E" →
      handle_http_error 403 (some b) text httpErrStr
        = .authorization ("Authorization failed (" ++ b.code ++ "): " ++ b.message)
      ∧ strContains ("Authorization failed (" ++ b.code ++ "): " ++ b.message)
          "Authorization failed") := by
  refine ⟨?_, ?_, ?_⟩
  · intro hc
    refine ⟨?_, ?_, ?_⟩
    · simp [handle_http_error, hc]
    · rw [hc]
      exact ⟨"Authentication failed (", "): " ++ b.message,
        by apply String.ext; simp [String.data_append]⟩
    · exact ⟨"Authentication failed (" ++ b.code ++ "): ", "",
        by apply String.ext; simp [String.data_append]⟩
  · intro hc
    refine ⟨?_, ?_⟩
    · simp [handle_http_error, hc]
    · exact ⟨"", " (" ++ b.code ++ "): " ++ b.message,
        by apply String.ext; simp [String.data_append]⟩
  · intro h1 h2
    refine ⟨?_, ?_⟩
    · simp [handle_http_error, h1, h2]
    · exact ⟨"", " (" ++ b.code ++ "): " ++ b.message,
        by apply String.ext; simp [String.data_append]⟩

/-- Witness for C4: 403 with ErrorCode APPAP306E and ErrorMessage "failed". -/
theorem c4_forbidden_classification_witness :
    handle_http_error 403
        (some { errorCode := some "APPAP306E", errorMessage := some "failed" }) "" "err"
      = .authentication "Authentication failed (APPAP306E): failed" :=
  ((c4_forbidden_classification
      { errorCode := some "APPAP306E", errorMessage := some "failed" } "" "err").1 rfl).1

/-- C5: an HTTP error whose body is not JSON classifies by status code alone,
with the raw response text in the message: 400 Validation, 403 Authentication,
404 AccountNotFound, 500 the base category, anything else the base category
naming the numeric status. -/
theorem c5_nonjson_fallback (status : Nat) (text httpErrStr : String) :
    (handle_http_error 400 none text httpErrStr
        = .validation ("Bad Request (HTTP 400): " ++ fallbackText text httpErrStr)
      ∧ strContains ("Bad Request (HTTP 400): " ++ fallbackText text httpErrStr) text)
    ∧ (handle_http_error 403 none text httpErrStr
        = .authentication ("Forbidden (HTTP 403): " ++ fallbackText text httpErrStr)
      ∧ strContains ("Forbidden (HTTP 403): " ++ fallbackText text httpErrStr) text)
    ∧ (handle_http_error 404 none text httpErrStr
        = .accountNotFound ("Not Found (HTTP 404): " ++ fallbackText text httpErrStr)
      ∧ strContains ("Not Found (HTTP 404): " ++ fallbackText text httpErrStr) text)
    ∧ (handle_http_error 500 none text httpErrStr
        = .generic ("Internal Server Error (HTTP 500): " ++ fallbackText text httpErrStr)
      ∧ strContains ("Internal Server Error (HTTP 500): " ++ fallbackText text httpErrStr)
          text)
    ∧ (status ≠ 400 → status ≠ 403 → status ≠ 404 → status ≠ 500 →
      handle_http_error status none text httpErrStr
        = .generic ("HTTP error " ++ toString status ++ ": " ++ fallbackText text httpErrStr)
      ∧ strContains ("HTTP error " ++ toString status ++ ": " ++ fallbackText text httpErrStr)
          (toString status)
      ∧ strContains ("HTTP error " ++ toString status ++ ": " ++ fallbackText text httpErrStr)
          text) := by
  refine ⟨⟨rfl, strContains_fallback _ _ _⟩, ⟨rfl, strContains_fallback _ _ _⟩,
    ⟨rfl, strContains_fallback _ _ _⟩, ⟨rfl, strContains_fallback _ _ _⟩, ?_⟩
  intro h1 h2 h3 h4
  refine ⟨?_, ?_, strContains_fallback _ _ _⟩
  · simp [handle_http_error, h1, h2, h3, h4]
  · exact ⟨"HTTP error ", ": " ++ fallbackText text httpErrStr,
      by apply String.ext; simp [String.data_append]⟩

/-- Witness for C5: status 418 with a non-JSON body. -/
theorem c5_nonjson_fallback_witness :
    handle_http_error 418 none "teapot" "err" = .generic "HTTP error 418: teapot" :=
  ((c5_nonjson_fallback 418 "teapot" "err").2.2.2.2
    (by decide) (by decide) (by decide) (by decide)).1

/-- C6: on a success status (200-299), a body that fails to decode yields the
base error "Invalid JSON response from server"; a body that decodes is
returned as the account record. -/
theorem c6_success_json_decoding (status : Nat) (body : Option ErrorBody)
    (text httpErrStr : String) (h1 : 200 ≤ status) (h2 : status ≤ 299) :
    (get_account_response status none body text httpErrStr
      = .error (.generic "Invalid JSON response from server"))
    ∧ ∀ j, get_account_response status (some j) body text httpErrStr = .ok j := by
  have hrs : raiseForStatusFails status = false := by
    unfold raiseForStatusFails
    have hx : ¬ (400 ≤ status) := by omega
    simp [hx]
  constructor
  · simp [get_account_response, hrs]
  · intro j
    simp [get_account_response, hrs]

/-- Witness for C6: status 200 with a decoded empty JSON object. -/
theorem c6_success_json_decoding_witness :
    get_account_response 200 (some (Json.obj [])) none "" "" = .ok (Json.obj []) :=
  (c6_success_json_decoding 200 none "" "" (by decide) (by decide)).2 (Json.obj [])

theorem validate_url_value_eq_of_find (v name : String) (c : Char)
    (hf : invalid_chars.find? (fun c => hasChar v c) = some c) :
    validate_url_value v name = .error (.validation (invalidCharMessage name c)) := by
  unfold validate_url_value
  rw [hf]

theorem validate_url_value_eq_of_none (v name : String)
    (hf : invalid_chars.find? (fun c => hasChar v c) = none) :
    validate_url_value v name
      = (if hasChar v ' ' then .error (.validation (spacesMessage name)) else .ok ()) := by
  unfold validate_url_value
  rw [hf]

/-- C3: validating a value scans for the four unsupported characters in order
and fails naming the offending character and the field; a value free of those
characters but containing a space fails with the distinct spaces message; a
value containing none of the five characters passes. -/
theorem c3_validate_value_characters (v name : String) :
    ((hasChar v '+' || hasChar v '&' || hasChar v '%' || hasChar v ';') = true →
      ∃ c, (c = '+' ∨ c = '&' ∨ c = '%' ∨ c = ';') ∧ hasChar v c = true
        ∧ validate_url_value v name = .error (.validation (invalidCharMessage name c)))
    ∧ ((hasChar v ' ' = true
        ∧ (hasChar v '+' || hasChar v '&' || hasChar v '%' || hasChar v ';') = false) →
      validate_url_value v name = .error (.validation (spacesMessage name)))
    ∧ ((hasChar v '+' || hasChar v '&' || hasChar v '%' || hasChar v ';'
        || hasChar v ' ') = false →
      validate_url_value v name = .ok ()) := by
  refine ⟨?_, ?_, ?_⟩
  · intro hor
    by_cases h1 : hasChar v '+'
    · exact ⟨'+', .inl rfl, h1, validate_url_value_eq_of_find v name '+'
        (by simp [invalid_chars, List.find?, h1])⟩
    · by_cases h2 : hasChar v '&'
      · exact ⟨'&', .inr (.inl rfl), h2, validate_url_value_eq_of_find v name '&'
          (by simp [invalid_chars, List.find?, h1, h2])⟩
      · by_cases h3 : hasChar v '%'
        · exact ⟨'%', .inr (.inr (.inl rfl)), h3, validate_url_value_eq_of_find v name '%'
            (by simp [invalid_chars, List.find?, h1, h2, h3])⟩
        · by_cases h4 : hasChar v ';'
          · exact ⟨';', .inr (.inr (.inr rfl)), h4, validate_url_value_eq_of_find v name ';'
              (by simp [invalid_chars, List.find?, h1, h2, h3, h4])⟩
          · exfalso
            simp [h1, h2, h3, h4] at hor
  · intro ⟨hsp, hnone⟩
    simp only [Bool.or_eq_false_iff] at hnone
    obtain ⟨⟨⟨h1, h2⟩, h3⟩, h4⟩ := hnone
    rw [validate_url_value_eq_of_none v name
      (by simp [invalid_chars, List.find?, h1, h2, h3, h4]), if_pos hsp]
  · intro hnone
    simp only [Bool.or_eq_false_iff] at hnone
    obtain ⟨⟨⟨⟨h1, h2⟩, h3⟩, h4⟩, h5⟩ := hnone
    rw [validate_url_value_eq_of_none v name
      (by simp [invalid_chars, List.find?, h1, h2, h3, h4]), if_neg (by simp [h5])]

/-- Witness for C3: an embedded space is rejected with the spaces message. -/
theorem c3_validate_value_characters_witness :
    validate_url_value "a b" "Safe" = .error (.validation (spacesMessage "Safe")) :=
  (c3_validate_value_characters "a b" "Safe").2.1 ⟨by decide, by decide⟩

theorem optionalParams_key (a : Args) (k : String) (v? : Option String)
    (h : (k, v?) ∈ optionalParams a) :
    k = "Safe" ∨ k = "Folder" ∨ k = "Object" ∨ k = "UserName" ∨ k = "Address"
      ∨ k = "Database" ∨ k = "PolicyID" := by
  simp only [optionalParams, List.mem_cons, List.not_mem_nil, or_false] at h
  rcases h with h | h | h | h | h | h | h <;>
    · have hk := congrArg Prod.fst h
      simp only at hk
      tauto

theorem searchPart_keys (a : Args) (sp : List (String × String))
    (h : searchPart a = .ok sp) :
    ∀ kv ∈ sp, kv.1 = "Query" ∨ kv.1 = "Query Format" ∨ kv.1 = "Safe" ∨ kv.1 = "Folder"
      ∨ kv.1 = "Object" ∨ kv.1 = "UserName" ∨ kv.1 = "Address" ∨ kv.1 = "Database"
      ∨ kv.1 = "PolicyID" := by
  intro kv hm
  obtain ⟨k, v⟩ := kv
  unfold searchPart at h
  cases hq : a.query with
  | none =>
    rw [hq] at h
    have hk := optionalParams_key a k (some v) ((addOptionalParams_ok_mem _ _ h k v).mp hm)
    tauto
  | some q =>
    rw [hq] at h
    have h' : (if q.isEmpty then addOptionalParams (optionalParams a)
        else queryPart q a.query_format) = .ok sp := h
    split at h'
    · have hk := optionalParams_key a k (some v) ((addOptionalParams_ok_mem _ _ h' k v).mp hm)
      tauto
    · obtain ⟨-, hsp2⟩ := queryPart_ok q a.query_format sp h'
      rcases hsp2 with ⟨-, rfl⟩ | ⟨f, -, rfl⟩ <;> simp [Prod.ext_iff] at hm <;> tauto

theorem build_params_timeout_error (app_id : String) (a : Args)
    (sp rp : List (String × String)) (e : CCPError)
    (hsp : searchPart a = .ok sp) (hrp : reasonPart a.reason = .ok rp)
    (htp : timeoutPart a.connection_timeout = .error e) :
    build_params app_id a = .error e := by
  unfold build_params
  rw [hsp, hrp, htp]

/-- C8: a supplied zero or negative connection timeout fails parameter
building with "Connection timeout must be positive" (whenever the other
supplied values themselves pass validation, modelled as: the same criteria
with the timeout removed build successfully); a successful build with a
supplied timeout t has 0 < t and carries "Connection Timeout" mapped to the
decimal string of t; with no timeout supplied the key is absent. -/
theorem c8_connection_timeout (app_id : String) (a : Args) :
    (∀ t, a.connection_timeout = some t → t ≤ 0 →
      ∀ p0, build_params app_id { a with connection_timeout := none } = .ok p0 →
        build_params app_id a = .error (.validation "Connection timeout must be positive"))
    ∧ (∀ t p, a.connection_timeout = some t → build_params app_id a = .ok p →
      0 < t ∧ ("Connection Timeout", toString t) ∈ p)
    ∧ (a.connection_timeout = none → ∀ p, build_params app_id a = .ok p →
      ∀ v, ("Connection Timeout", v) ∉ p) := by
  refine ⟨?_, ?_, ?_⟩
  · intro t ht hle p0 h0
    obtain ⟨sp, rp, tp, hsp, hrp, htp, -⟩ := build_params_ok app_id _ p0 h0
    have hsp' : searchPart a = .ok sp := hsp
    have hrp' : reasonPart a.reason = .ok rp := hrp
    refine build_params_timeout_error app_id a sp rp _ hsp' hrp' ?_
    rw [ht]
    exact timeoutPart_some_nonpos t hle
  · intro t p ht h
    obtain ⟨sp, rp, tp, hsp, hrp, htp, rfl⟩ := build_params_ok app_id a p h
    rcases timeoutPart_ok _ _ htp with ⟨hnone, rfl⟩ | ⟨tX, htX, hpos, rfl⟩
    · rw [ht] at hnone
      cases hnone
    · rw [ht] at htX
      injection htX with htX
      subst htX
      exact ⟨hpos, by simp⟩
  · intro hnone p h v hv
    obtain ⟨sp, rp, tp, hsp, hrp, htp, rfl⟩ := build_params_ok app_id a p h
    rcases timeoutPart_ok _ _ htp with ⟨-, rfl⟩ | ⟨t, ht, -, -⟩
    · rcases reasonPart_ok _ _ hrp with ⟨-, rfl⟩ | ⟨r, -, -, rfl⟩ <;>
        cases hb : a.fail_request_on_password_change <;>
          simp [flagPart, hb, Prod.ext_iff] at hv <;>
          · have hk := searchPart_keys a sp hsp _ hv
            simp at hk
    · rw [hnone] at ht
      cases ht

/-- Witness for C8: timeout 0 with otherwise valid criteria fails with the
dedicated message. -/
theorem c8_connection_timeout_witness :
    build_params "app" { account := some "acct", connection_timeout := some 0 }
      = .error (.validation "Connection timeout must be positive") :=
  (c8_connection_timeout "app" { account := some "acct", connection_timeout := some 0 }).1
    0 rfl (by decide) [("AppID", "app")] rfl

/-- C9: the fail-request-on-password-change flag serializes as "true" when
explicitly true, "false" when explicitly false, and the wire key is entirely
absent when the flag is not supplied. -/
theorem c9_fail_request_flag (app_id : String) (a : Args) (p : List (String × String))
    (h : build_params app_id a = .ok p) :
    (a.fail_request_on_password_change = some true →
      ("FailRequestOnPasswordChange", "true") ∈ p)
    ∧ (a.fail_request_on_password_change = some false →
      ("FailRequestOnPasswordChange", "false") ∈ p)
    ∧ (a.fail_request_on_password_change = none →
      ∀ v, ("FailRequestOnPasswordChange", v) ∉ p) := by
  obtain ⟨sp, rp, tp, hsp, hrp, htp, rfl⟩ := build_params_ok app_id a p h
  refine ⟨?_, ?_, ?_⟩
  · intro hb
    simp [flagPart, hb]
  · intro hb
    simp [flagPart, hb]
  · intro hb v hv
    rcases reasonPart_ok _ _ hrp with ⟨-, rfl⟩ | ⟨r, -, -, rfl⟩ <;>
      rcases timeoutPart_ok _ _ htp with ⟨-, rfl⟩ | ⟨t, -, -, rfl⟩ <;>
        simp [flagPart, hb, Prod.ext_iff] at hv <;>
        · have hk := searchPart_keys a sp hsp _ hv
          simp at hk

/-- Witness for C9: an explicitly-true flag yields wire value "true". -/
theorem c9_fail_request_flag_witness :
    ("FailRequestOnPasswordChange", "true")
      ∈ ([("AppID", "app"), ("Safe", "S"), ("FailRequestOnPasswordChange", "true")]
          : List (String × String)) :=
  (c9_fail_request_flag "app"
    { safe := some "S", fail_request_on_password_change := some true }
    [("AppID", "app"), ("Safe", "S"), ("FailRequestOnPasswordChange", "true")] rfl).1 rfl

/-- C2: with a non-empty query string the built wire parameters carry
`Query` mapped to it, carry `Query Format` (mapped to Exact/Regexp) exactly
when a query format was supplied, and carry none of the discrete criteria
keys even when the caller supplied those fields. -/
theorem c2_query_overrides_discrete (app_id q : String) (a : Args)
    (p : List (String × String)) (hq : a.query = some q) (hne : q.isEmpty = false)
    (h : build_params app_id a = .ok p) :
    ("Query", q) ∈ p
    ∧ (∀ s, ("Query Format", s) ∈ p ↔ ∃ f, a.query_format = some f ∧ s = f.value)
    ∧ (∀ v, ("Safe", v) ∉ p) ∧ (∀ v, ("Folder", v) ∉ p) ∧ (∀ v, ("Object", v) ∉ p)
    ∧ (∀ v, ("UserName", v) ∉ p) ∧ (∀ v, ("Address", v) ∉ p)
    ∧ (∀ v, ("Database", v) ∉ p) ∧ (∀ v, ("PolicyID", v) ∉ p) := by
  obtain ⟨sp, rp, tp, hsp, hrp, htp, rfl⟩ := build_params_ok app_id a p h
  rw [searchPart_query a q hq hne] at hsp
  obtain ⟨-, hsp2⟩ := queryPart_ok q a.query_format sp hsp
  rcases hsp2 with ⟨hqf, rfl⟩ | ⟨f, hqf, rfl⟩ <;>
    rcases reasonPart_ok _ _ hrp with ⟨-, rfl⟩ | ⟨r, -, -, rfl⟩ <;>
      rcases timeoutPart_ok _ _ htp with ⟨-, rfl⟩ | ⟨t, -, -, rfl⟩ <;>
        cases hb : a.fail_request_on_password_change <;>
          simp [flagPart, hqf, hb, Prod.ext_iff]

/-- Witness for C2: query "Safe=X" together with safe "Y" yields only the
Query key, never Safe. -/
theorem c2_query_overrides_discrete_witness :
    ("Query", "Safe=X") ∈ ([("AppID", "app"), ("Query", "Safe=X")] : List (String × String))
    ∧ ∀ v, ("Safe", v) ∉ ([("AppID", "app"), ("Query", "Safe=X")] : List (String × String)) :=
  ⟨(c2_query_overrides_discrete "app" "Safe=X" { query := some "Safe=X", safe := some "Y" }
      [("AppID", "app"), ("Query", "Safe=X")] rfl rfl rfl).1,
   (c2_query_overrides_discrete "app" "Safe=X" { query := some "Safe=X", safe := some "Y" }
      [("AppID", "app"), ("Query", "Safe=X")] rfl rfl rfl).2.2.1⟩

/-- C7 counterexample: supplying `safe` as the empty string still emits the
`Safe` wire key (the source tests `is not None`, not non-emptiness), so a
discrete key is emitted for a present-but-empty field. -/
theorem c7_empty_value_still_emitted :
    build_params "app" { safe := some "" } = .ok [("AppID", "app"), ("Safe", "")]
    ∧ ("Safe", "") ∈ ([("AppID", "app"), ("Safe", "")] : List (String × String)) :=
  ⟨rfl, by simp⟩

/-- C7 (amended): in the non-query path each discrete wire key (Safe, Folder,
Object, UserName, Address, Database, PolicyID) is emitted iff the
corresponding field is supplied (non-None — including the empty string), and
every supplied discrete value first passes the character-validation rule. -/
theorem c7_discrete_emission (app_id : String) (a : Args) (p : List (String × String))
    (hq : truthy a.query = false) (h : build_params app_id a = .ok p) :
    (∀ v, (("Safe", v) ∈ p ↔ a.safe = some v))
    ∧ (∀ v, (("Folder", v) ∈ p ↔ a.folder = some v))
    ∧ (∀ v, (("Object", v) ∈ p ↔ a.password_object = some v))
    ∧ (∀ v, (("UserName", v) ∈ p ↔ a.username = some v))
    ∧ (∀ v, (("Address", v) ∈ p ↔ a.address = some v))
    ∧ (∀ v, (("Database", v) ∈ p ↔ a.database = some v))
    ∧ (∀ v, (("PolicyID", v) ∈ p ↔ a.policy_id = some v))
    ∧ (∀ k v, (k, some v) ∈ optionalParams a → validate_url_value v k = .ok ()) := by
  obtain ⟨sp, rp, tp, hsp, hrp, htp, rfl⟩ := build_params_ok app_id a p h
  rw [searchPart_noquery a hq] at hsp
  have hmem : ∀ k v : String, ((k, v) ∈ sp ↔ (k, some v) ∈ optionalParams a) :=
    addOptionalParams_ok_mem _ _ hsp
  rcases reasonPart_ok _ _ hrp with ⟨-, rfl⟩ | ⟨r, -, -, rfl⟩ <;>
    rcases timeoutPart_ok _ _ htp with ⟨-, rfl⟩ | ⟨t, -, -, rfl⟩ <;>
      cases hb : a.fail_request_on_password_change <;>
        refine ⟨?_, ?_, ?_, ?_, ?_, ?_, ?_, addOptionalParams_ok_valid _ _ hsp⟩ <;>
          intro v <;>
            simp [flagPart, hb, Prod.ext_iff, hmem, optionalParams, eq_comm]

/-- Witness for C7 (amended): a supplied safe "S" is emitted as the Safe key. -/
theorem c7_discrete_emission_witness :
    ("Safe", "S") ∈ ([("AppID", "app"), ("Safe", "S")] : List (String × String)) :=
  ((c7_discrete_emission "app" { safe := some "S" } [("AppID", "app"), ("Safe", "S")]
      rfl rfl).1 "S").mpr rfl
